import Mathlib

/-!
Shallow embedding of `src/mispricing.py`, the "adverse-to-zero" signal
engine: a SQLite-backed tick store, a robust (median absolute log return)
volatility estimator, two worst-case cost models, and the gated decision
function `decide`.

Modelling choices:
* Prices and cost fractions are real numbers (the Python code uses floats
  and the transcendental functions `math.log` / `math.exp`).
* The `ticks` table is a list of rows; `put_tick` models SQLite's
  `INSERT OR REPLACE` on the primary key `(ts, symbol)` by deleting any
  row with the same key and appending the new row.
* `recent_prices` models `SELECT ts, price WHERE symbol=? ORDER BY ts
  DESC LIMIT ?` followed by `list(reversed(rows))`: filter by symbol,
  sort by timestamp descending, take `limit`, reverse.
* The module-level configuration constants keep their source names and
  values.  `worst_cost_of_inaction` is additionally factored through a
  configuration-parametrised version so that the clamp
  `max(1.0, WINDOW_SECONDS)` can be discussed for arbitrary window
  configurations.
* The f-string reason tags are embedded as the exact strings the source
  produces at the configured constants.
-/

namespace Mispricing

/-- A row of the `ticks` table: `(ts INTEGER, symbol TEXT, price REAL)`,
primary key `(ts, symbol)`. -/
structure Tick where
  ts : ℤ
  symbol : String
  price : ℝ

/-- The `ticks` table. -/
abbrev Db := List Tick

-- -------------------- cadence --------------------

def POLL_SECONDS : ℝ := 30

-- -------------------- hard safety bounds --------------------

def HARD_MAX_LOSS_FRAC : ℝ := 0.006
def FEE_FRAC : ℝ := 0.0015
def SLIPPAGE_FRAC : ℝ := 0.0010
def ADVERSE_MOVE_PAD : ℝ := 0.0025

-- -------------------- "zero is a liability" strength --------------------

def WINDOW_SECONDS : ℝ := 180
def ZERO_LIABILITY_GAIN : ℝ := 1.0

-- -------------------- signal thresholding --------------------

def MIN_EDGE_FRAC : ℝ := 0.004

-- -------------------- persistence --------------------

/-- `put_tick`: `INSERT OR REPLACE INTO ticks (ts, symbol, price)`.
SQLite deletes any row conflicting on the primary key `(ts, symbol)`
and inserts the new row. -/
def put_tick (ts : ℤ) (symbol : String) (price : ℝ) (db : Db) : Db :=
  db.filter (fun t => !(Decidable.decide (t.ts = ts ∧ t.symbol = symbol))) ++
    [⟨ts, symbol, price⟩]

/-- `recent_prices`: rows for `symbol` ordered `ts DESC` limited to
`limit`, then reversed into chronological order. -/
def recent_prices (db : Db) (symbol : String) (limit : ℕ) : List (ℤ × ℝ) :=
  (((((db.filter (fun t => Decidable.decide (t.symbol = symbol))).map
      (fun t => (t.ts, t.price))).insertionSort
        (fun a b => b.1 ≤ a.1)).take limit)).reverse

-- -------------------- model --------------------

/-- The `Opportunity` dataclass. -/
structure Opportunity where
  symbol : String
  price : ℝ
  ref_price : ℝ
  side : String

/-- `Opportunity.edge`: signed edge from the perspective of taking the
action side. -/
noncomputable def Opportunity.edge (o : Opportunity) : ℝ :=
  if o.ref_price ≤ 0 then 0
  else if o.side = "BUY" then (o.ref_price - o.price) / o.ref_price
  else (o.price - o.ref_price) / o.ref_price

-- -------------------- robust volatility estimate --------------------

/-- The loop `for i in range(1, len(pts))` of `robust_vol_frac`: the
absolute log return of every consecutive pair, skipping (`continue`)
any pair in which either price is non-positive. -/
noncomputable def absLogRets : List ℝ → List ℝ
  | p0 :: p1 :: rest =>
      if p0 ≤ 0 ∨ p1 ≤ 0 then absLogRets (p1 :: rest)
      else |Real.log (p1 / p0)| :: absLogRets (p1 :: rest)
  | _ => []

/-- `robust_vol_frac`: conservative per-window volatility estimate from
the median absolute log return over the 120 most recent ticks. -/
noncomputable def robust_vol_frac (db : Db) (symbol : String) : ℝ :=
  let pts := recent_prices db symbol 120
  if pts.length < 20 then 0
  else
    let rets := absLogRets (pts.map Prod.snd)
    if rets.length < 10 then 0
    else
      let sorted := rets.insertionSort (· ≤ ·)
      let med := sorted.getD (sorted.length / 2) 0
      max 0 (Real.exp med - 1)

-- -------------------- adverse-to-zero decision rule --------------------

/-- `worst_cost_of_action`: fees + slippage + the worse of the fixed
adverse pad and twice the observed volatility. -/
noncomputable def worst_cost_of_action (db : Db) (symbol : String) : ℝ :=
  let vol := robust_vol_frac db symbol
  let adverse := max ADVERSE_MOVE_PAD (2.0 * vol)
  FEE_FRAC + SLIPPAGE_FRAC + adverse

/-- `worst_cost_of_inaction` with the three configuration constants it
reads (`POLL_SECONDS`, `WINDOW_SECONDS`, `ZERO_LIABILITY_GAIN`) passed
explicitly, so the clamp `max(1.0, WINDOW_SECONDS)` can be analysed for
arbitrary configurations. -/
noncomputable def worst_cost_of_inaction_cfg (pollSeconds windowSeconds gain : ℝ)
    (opp : Opportunity) : ℝ :=
  let e := max 0.0 opp.edge
  let decay_penalty := min 1.0 (pollSeconds / max 1.0 windowSeconds)
  gain * e * (1.0 + decay_penalty)

/-- `worst_cost_of_inaction`: the configured instance, exactly the
source function at the module constants. -/
noncomputable def worst_cost_of_inaction (opp : Opportunity) : ℝ :=
  worst_cost_of_inaction_cfg POLL_SECONDS WINDOW_SECONDS ZERO_LIABILITY_GAIN opp

/-- The reason string `f"edge<{MIN_EDGE_FRAC:.4f}"` at the configured
constant. -/
def REASON_EDGE : String := "edge<0.0040"

/-- The reason string `f"cost_act>{HARD_MAX_LOSS_FRAC:.4f} (hard bound)"`
at the configured constant. -/
def REASON_BOUND : String := "cost_act>0.0060 (hard bound)"

def REASON_ESCAPE : String := "escape_zero(cost_zero>cost_act)"

def REASON_STAY : String := "stay_zero(cost_zero<=cost_act)"

/-- `decide(opp)`: returns `(action, cost_zero, cost_act, reason)`.
The tick store is passed explicitly (the Python function reads it
through `worst_cost_of_action → robust_vol_frac → recent_prices`). -/
noncomputable def decide (db : Db) (opp : Opportunity) :
    String × ℝ × ℝ × String :=
  let e := opp.edge
  if e < MIN_EDGE_FRAC then
    ("FLAT", 0, 0, REASON_EDGE)
  else
    let cost_act := worst_cost_of_action db opp.symbol
    if cost_act > HARD_MAX_LOSS_FRAC then
      ("FLAT", 0, cost_act, REASON_BOUND)
    else
      let cost_zero := worst_cost_of_inaction opp
      if cost_zero > cost_act then
        (opp.side, cost_zero, cost_act, REASON_ESCAPE)
      else
        ("FLAT", cost_zero, cost_act, REASON_STAY)

-- -------------------- reference price model --------------------

/-- The per-symbol body of `compute_ref_prices`: the observed price when
fewer than 15 recent ticks exist, otherwise the trailing median of up to
60 recent prices. -/
noncomputable def ref_price_for (db : Db) (sym : String) (px : ℝ) : ℝ :=
  let pts := recent_prices db sym 60
  if pts.length < 15 then px
  else
    let vals := (pts.map Prod.snd).insertionSort (· ≤ ·)
    vals.getD (vals.length / 2) 0

/-- `compute_ref_prices`: the snapshot mapping with every symbol sent to
its reference price. -/
noncomputable def compute_ref_prices (db : Db) (snapshot : List (String × ℝ)) :
    List (String × ℝ) :=
  snapshot.map (fun s => (s.1, ref_price_for db s.1 s.2))

-- -------------------- evaluation helpers --------------------

theorem recent_prices_nil (symbol : String) (limit : ℕ) :
    recent_prices [] symbol limit = [] := by
  simp [recent_prices]

theorem robust_vol_frac_nil (symbol : String) :
    robust_vol_frac [] symbol = 0 := by
  simp [robust_vol_frac, recent_prices_nil]

theorem worst_cost_of_action_nil (symbol : String) :
    worst_cost_of_action [] symbol = 0.005 := by
  simp [worst_cost_of_action, robust_vol_frac_nil, ADVERSE_MOVE_PAD,
    FEE_FRAC, SLIPPAGE_FRAC]
  norm_num

/-- The BUY opportunity of the spec's end-to-end scenario:
reference 100, observed 99.5, edge 0.005. -/
def oppX : Opportunity := ⟨"X", 99.5, 100, "BUY"⟩

theorem oppX_edge : oppX.edge = 0.005 := by
  simp [Opportunity.edge, oppX]
  norm_num

theorem cost_zero_oppX : worst_cost_of_inaction oppX = 0.005 * (7 / 6) := by
  rw [worst_cost_of_inaction, worst_cost_of_inaction_cfg, oppX_edge]
  rw [POLL_SECONDS, WINDOW_SECONDS, ZERO_LIABILITY_GAIN]
  norm_num

-- -------------------- claim theorems --------------------

/-- C4: `worst_cost_of_action` equals fee + slippage + max(fixed floor,
2 × volatility estimate), and `worst_cost_of_inaction` equals
max(0, edge) × zero-liability gain × (1 + decay penalty) with
decay penalty = min(1, poll seconds / window seconds); at the configured
window of 180 s the source's `max(1.0, WINDOW_SECONDS)` clamp equals the
plain denominator. -/
theorem C4_cost_model_formulas :
    (∀ (db : Db) (symbol : String),
        worst_cost_of_action db symbol =
          FEE_FRAC + SLIPPAGE_FRAC +
            max ADVERSE_MOVE_PAD (2 * robust_vol_frac db symbol)) ∧
    (∀ opp : Opportunity,
        worst_cost_of_inaction opp =
          max 0 opp.edge * ZERO_LIABILITY_GAIN *
            (1 + min 1 (POLL_SECONDS / WINDOW_SECONDS))) := by
  constructor
  · intro db symbol
    norm_num [worst_cost_of_action]
  · intro opp
    rw [worst_cost_of_inaction, worst_cost_of_inaction_cfg,
      POLL_SECONDS, WINDOW_SECONDS, ZERO_LIABILITY_GAIN]
    norm_num

/-- C10: the decay-penalty denominator of `worst_cost_of_inaction` is
clamped to `max(1.0, WINDOW_SECONDS)`, which is positive for every
configured window (so the quotient is never a division by zero), and for
windows below 1 second the cost is the one computed with denominator 1. -/
theorem C10_decay_denominator_clamped :
    (∀ w : ℝ, 0 < max 1.0 w) ∧
    (∀ (poll gain w : ℝ) (opp : Opportunity), w < 1 →
        worst_cost_of_inaction_cfg poll w gain opp =
          worst_cost_of_inaction_cfg poll 1 gain opp) := by
  constructor
  · intro w
    have h1 : (0 : ℝ) < 1.0 := by norm_num
    exact lt_of_lt_of_le h1 (le_max_left _ _)
  · intro poll gain w opp hw
    rw [worst_cost_of_inaction_cfg, worst_cost_of_inaction_cfg]
    have h1 : max 1.0 w = 1.0 := by
      rw [max_eq_left]
      · norm_num
        exact le_of_lt hw
    have h2 : max (1.0 : ℝ) 1 = 1.0 := by norm_num
    rw [h1, h2]

/-- Witness for C10 at window 0: the clamped denominator is positive and
a zero-second window behaves exactly like a one-second window. -/
theorem C10_decay_denominator_clamped_witness :
    (0 : ℝ) < max 1.0 0 ∧
    worst_cost_of_inaction_cfg 30 0 1 oppX =
      worst_cost_of_inaction_cfg 30 1 1 oppX :=
  ⟨C10_decay_denominator_clamped.1 0,
   C10_decay_denominator_clamped.2 30 1 0 oppX (by norm_num)⟩

/-- C9: tick ingestion is last-write-wins on the key `(ts, symbol)`:
one write leaves exactly the row written as the key's only row, writing
the identical row again still leaves exactly that one row, and writing a
different price under the same key replaces the prior price. -/
theorem C9_put_tick_last_write_wins (ts : ℤ) (symbol : String) (p p' : ℝ)
    (db : Db) :
    ((put_tick ts symbol p db).filter
        (fun t => Decidable.decide (t.ts = ts ∧ t.symbol = symbol))) =
      [⟨ts, symbol, p⟩] ∧
    ((put_tick ts symbol p (put_tick ts symbol p db)).filter
        (fun t => Decidable.decide (t.ts = ts ∧ t.symbol = symbol))) =
      [⟨ts, symbol, p⟩] ∧
    ((put_tick ts symbol p' (put_tick ts symbol p db)).filter
        (fun t => Decidable.decide (t.ts = ts ∧ t.symbol = symbol))) =
      [⟨ts, symbol, p'⟩] := by
  refine ⟨?_, ?_, ?_⟩ <;>
    simp [put_tick, List.filter_append, List.filter_filter]

/-- C3: when the edge is strictly below the minimum edge fraction,
`decide` returns FLAT with both reported costs 0 and the edge-gate
reason (the source's tag `edge<0.0040`, the rendering of
`edge<threshold` at the configured constant). -/
theorem C3_edge_gate (db : Db) (opp : Opportunity)
    (h : opp.edge < MIN_EDGE_FRAC) :
    Mispricing.decide db opp = ("FLAT", 0, 0, REASON_EDGE) := by
  simp [Mispricing.decide, h]

/-- Witness for C3: an opportunity priced exactly at its reference has
edge 0 < 0.004 and is gated to FLAT with zero costs. -/
theorem C3_edge_gate_witness :
    (Opportunity.mk "X" 100 100 "BUY").edge < MIN_EDGE_FRAC ∧
    Mispricing.decide [] (Opportunity.mk "X" 100 100 "BUY") =
      ("FLAT", 0, 0, REASON_EDGE) := by
  have h : (Opportunity.mk "X" 100 100 "BUY").edge < MIN_EDGE_FRAC := by
    simp [Opportunity.edge, MIN_EDGE_FRAC]
    norm_num
  exact ⟨h, C3_edge_gate [] _ h⟩

/-- C5: `decide` is a total function (it is defined for every store and
opportunity) and, for opportunities whose side was pre-validated to BUY
or SELL, the returned action is always exactly one of BUY, SELL, FLAT. -/
theorem C5_decide_total (db : Db) (opp : Opportunity)
    (h : opp.side = "BUY" ∨ opp.side = "SELL") :
    (Mispricing.decide db opp).1 = "BUY" ∨
      (Mispricing.decide db opp).1 = "SELL" ∨
      (Mispricing.decide db opp).1 = "FLAT" := by
  by_cases h1 : opp.edge < MIN_EDGE_FRAC
  · simp [Mispricing.decide, h1]
  · by_cases h2 : worst_cost_of_action db opp.symbol > HARD_MAX_LOSS_FRAC
    · simp [Mispricing.decide, h1, h2]
    · by_cases h3 : worst_cost_of_inaction opp > worst_cost_of_action db opp.symbol
      · rcases h with h | h <;> simp [Mispricing.decide, h1, h2, h3, h]
      · simp [Mispricing.decide, h1, h2, h3]

/-- Witness for C5 on a concrete BUY opportunity and the empty store. -/
theorem C5_decide_total_witness :
    ((Opportunity.mk "X" 100 100 "BUY").side = "BUY" ∨
      (Opportunity.mk "X" 100 100 "BUY").side = "SELL") ∧
    ((Mispricing.decide [] (Opportunity.mk "X" 100 100 "BUY")).1 = "BUY" ∨
      (Mispricing.decide [] (Opportunity.mk "X" 100 100 "BUY")).1 = "SELL" ∨
      (Mispricing.decide [] (Opportunity.mk "X" 100 100 "BUY")).1 = "FLAT") :=
  ⟨Or.inl rfl, C5_decide_total [] _ (Or.inl rfl)⟩

/-- Branch characterisation of `decide`: when all three gates pass the
result is the escape-zero tuple. -/
theorem decide_escape_branch (db : Db) (opp : Opportunity)
    (h1 : ¬ opp.edge < MIN_EDGE_FRAC)
    (h2 : ¬ worst_cost_of_action db opp.symbol > HARD_MAX_LOSS_FRAC)
    (h3 : worst_cost_of_inaction opp > worst_cost_of_action db opp.symbol) :
    Mispricing.decide db opp =
      (opp.side, worst_cost_of_inaction opp,
        worst_cost_of_action db opp.symbol, REASON_ESCAPE) := by
  simp [Mispricing.decide, h1, h2, h3]

/-- Evaluation of the spec's end-to-end scenario: empty history, BUY at
99.5 against reference 100; cost of inaction 0.005 × 7/6 beats the cost
of action 0.005, so the engine escapes zero. -/
theorem decide_nil_oppX :
    Mispricing.decide [] oppX =
      ("BUY", worst_cost_of_inaction oppX, worst_cost_of_action [] oppX.symbol,
        REASON_ESCAPE) := by
  have h1 : ¬ oppX.edge < MIN_EDGE_FRAC := by
    rw [oppX_edge, MIN_EDGE_FRAC]; norm_num
  have h2 : ¬ worst_cost_of_action [] oppX.symbol > HARD_MAX_LOSS_FRAC := by
    rw [worst_cost_of_action_nil, HARD_MAX_LOSS_FRAC]; norm_num
  have h3 : worst_cost_of_inaction oppX > worst_cost_of_action [] oppX.symbol := by
    rw [cost_zero_oppX, worst_cost_of_action_nil]; norm_num
  exact decide_escape_branch [] oppX h1 h2 h3

/-- C2: past the edge gate and under the hard bound, `decide` returns the
opportunity's side with the escape-zero reason exactly when the cost of
inaction strictly exceeds the cost of action, and otherwise (ties
included) returns FLAT with the stay-zero reason. -/
theorem C2_cost_comparison (db : Db) (opp : Opportunity)
    (h1 : MIN_EDGE_FRAC ≤ opp.edge)
    (h2 : worst_cost_of_action db opp.symbol ≤ HARD_MAX_LOSS_FRAC) :
    (Mispricing.decide db opp =
        (opp.side, worst_cost_of_inaction opp,
          worst_cost_of_action db opp.symbol, REASON_ESCAPE) ↔
      worst_cost_of_action db opp.symbol < worst_cost_of_inaction opp) ∧
    (worst_cost_of_inaction opp ≤ worst_cost_of_action db opp.symbol →
      Mispricing.decide db opp =
        ("FLAT", worst_cost_of_inaction opp,
          worst_cost_of_action db opp.symbol, REASON_STAY)) ∧
    (worst_cost_of_inaction opp = worst_cost_of_action db opp.symbol →
      (Mispricing.decide db opp).1 = "FLAT") := by
  have hg : ¬ opp.edge < MIN_EDGE_FRAC := not_lt.mpr h1
  have hb : ¬ worst_cost_of_action db opp.symbol > HARD_MAX_LOSS_FRAC :=
    not_lt.mpr h2
  refine ⟨?_, ?_, ?_⟩
  · constructor
    · intro heq
      by_contra hlt
      have hstay : Mispricing.decide db opp =
          ("FLAT", worst_cost_of_inaction opp,
            worst_cost_of_action db opp.symbol, REASON_STAY) := by
        simp [Mispricing.decide, hg, hb, hlt]
      rw [hstay] at heq
      have : REASON_STAY = REASON_ESCAPE := congrArg (fun q => q.2.2.2) heq
      exact absurd this (by decide)
    · intro hlt
      simp [Mispricing.decide, hg, hb, hlt]
  · intro hle
    have hlt : ¬ worst_cost_of_inaction opp > worst_cost_of_action db opp.symbol :=
      not_lt.mpr hle
    simp [Mispricing.decide, hg, hb, hlt]
  · intro heq
    have hlt : ¬ worst_cost_of_inaction opp > worst_cost_of_action db opp.symbol :=
      not_lt.mpr (le_of_eq heq)
    simp [Mispricing.decide, hg, hb, hlt]

/-- Witness for C2: the spec's end-to-end scenario takes the
escape-zero branch. -/
theorem C2_cost_comparison_witness :
    MIN_EDGE_FRAC ≤ oppX.edge ∧
    worst_cost_of_action [] oppX.symbol ≤ HARD_MAX_LOSS_FRAC ∧
    Mispricing.decide [] oppX =
      (oppX.side, worst_cost_of_inaction oppX,
        worst_cost_of_action [] oppX.symbol, REASON_ESCAPE) := by
  have h1 : MIN_EDGE_FRAC ≤ oppX.edge := by
    rw [oppX_edge, MIN_EDGE_FRAC]; norm_num
  have h2 : worst_cost_of_action [] oppX.symbol ≤ HARD_MAX_LOSS_FRAC := by
    rw [worst_cost_of_action_nil, HARD_MAX_LOSS_FRAC]; norm_num
  have h3 : worst_cost_of_action [] oppX.symbol < worst_cost_of_inaction oppX := by
    rw [cost_zero_oppX, worst_cost_of_action_nil]; norm_num
  exact ⟨h1, h2, (C2_cost_comparison [] oppX h1 h2).1.mpr h3⟩

/-- C8: the cost of inaction is monotonically non-decreasing in the
edge, and for two opportunities on the same symbol and side where the
second has at least the first's edge, a first decision that escaped zero
forces the second decision to escape zero as well. -/
theorem C8_edge_monotone (db : Db) (o1 o2 : Opportunity)
    (hsym : o1.symbol = o2.symbol) (_hside : o1.side = o2.side)
    (hedge : o1.edge ≤ o2.edge) :
    worst_cost_of_inaction o1 ≤ worst_cost_of_inaction o2 ∧
    ((Mispricing.decide db o1).2.2.2 = REASON_ESCAPE →
      Mispricing.decide db o2 =
        (o2.side, worst_cost_of_inaction o2,
          worst_cost_of_action db o2.symbol, REASON_ESCAPE)) := by
  have hmono : worst_cost_of_inaction o1 ≤ worst_cost_of_inaction o2 := by
    rw [worst_cost_of_inaction, worst_cost_of_inaction,
      worst_cost_of_inaction_cfg, worst_cost_of_inaction_cfg]
    have hfac : (0 : ℝ) ≤
        1.0 + min 1.0 (POLL_SECONDS / max 1.0 WINDOW_SECONDS) := by
      rw [POLL_SECONDS, WINDOW_SECONDS]; norm_num
    have he : max 0.0 o1.edge ≤ max 0.0 o2.edge :=
      max_le_max le_rfl hedge
    have hz : ZERO_LIABILITY_GAIN * max 0.0 o1.edge ≤
        ZERO_LIABILITY_GAIN * max 0.0 o2.edge :=
      mul_le_mul_of_nonneg_left he (by rw [ZERO_LIABILITY_GAIN]; norm_num)
    exact mul_le_mul_of_nonneg_right hz hfac
  refine ⟨hmono, ?_⟩
  intro hreason
  by_cases h1 : o1.edge < MIN_EDGE_FRAC
  · rw [show Mispricing.decide db o1 = ("FLAT", 0, 0, REASON_EDGE) from by
      simp [Mispricing.decide, h1]] at hreason
    have hbad : REASON_EDGE = REASON_ESCAPE := hreason
    exact absurd hbad (by decide)
  · by_cases h2 : worst_cost_of_action db o1.symbol > HARD_MAX_LOSS_FRAC
    · rw [show Mispricing.decide db o1 =
          ("FLAT", 0, worst_cost_of_action db o1.symbol, REASON_BOUND) from by
        simp [Mispricing.decide, h1, h2]] at hreason
      have hbad : REASON_BOUND = REASON_ESCAPE := hreason
      exact absurd hbad (by decide)
    · by_cases h3 : worst_cost_of_inaction o1 > worst_cost_of_action db o1.symbol
      · have g1 : ¬ o2.edge < MIN_EDGE_FRAC := by
          rw [not_lt] at h1 ⊢
          exact le_trans h1 hedge
        have g2 : ¬ worst_cost_of_action db o2.symbol > HARD_MAX_LOSS_FRAC := by
          rw [← hsym]; exact h2
        have g3 : worst_cost_of_inaction o2 > worst_cost_of_action db o2.symbol := by
          rw [← hsym]
          exact lt_of_lt_of_le h3 hmono
        simp [Mispricing.decide, g1, g2, g3]
      · rw [show Mispricing.decide db o1 =
            ("FLAT", worst_cost_of_inaction o1,
              worst_cost_of_action db o1.symbol, REASON_STAY) from by
          simp [Mispricing.decide, h1, h2, h3]] at hreason
        have hbad : REASON_STAY = REASON_ESCAPE := hreason
        exact absurd hbad (by decide)

/-- Witness for C8: the end-to-end scenario compared with itself (edge
trivially non-decreasing) keeps the escape-zero decision. -/
theorem C8_edge_monotone_witness :
    (Mispricing.decide [] oppX).2.2.2 = REASON_ESCAPE ∧
    Mispricing.decide [] oppX =
      (oppX.side, worst_cost_of_inaction oppX,
        worst_cost_of_action [] oppX.symbol, REASON_ESCAPE) := by
  have h : (Mispricing.decide [] oppX).2.2.2 = REASON_ESCAPE := by
    rw [decide_nil_oppX]
  exact ⟨h, (C8_edge_monotone [] oppX oppX rfl rfl le_rfl).2 h⟩

/-- C6: the volatility estimator returns 0 on fewer than 20 recent
ticks (out of the 120 most recent), skips every consecutive pair that
contains a non-positive price, returns 0 when fewer than 10 valid
absolute log returns remain, otherwise returns exp(median) − 1 floored
at 0 — and in all cases the result is non-negative. -/
theorem C6_robust_vol_frac_spec (db : Db) (symbol : String) :
    ((recent_prices db symbol 120).length < 20 →
      robust_vol_frac db symbol = 0) ∧
    (∀ (p0 p1 : ℝ) (rest : List ℝ), p0 ≤ 0 ∨ p1 ≤ 0 →
      absLogRets (p0 :: p1 :: rest) = absLogRets (p1 :: rest)) ∧
    (¬ (recent_prices db symbol 120).length < 20 →
      (absLogRets ((recent_prices db symbol 120).map Prod.snd)).length < 10 →
        robust_vol_frac db symbol = 0) ∧
    (¬ (recent_prices db symbol 120).length < 20 →
      ¬ (absLogRets ((recent_prices db symbol 120).map Prod.snd)).length < 10 →
        robust_vol_frac db symbol =
          max 0 (Real.exp
            ((((absLogRets ((recent_prices db symbol 120).map Prod.snd)).insertionSort
                (· ≤ ·)).getD
              (((absLogRets ((recent_prices db symbol 120).map Prod.snd)).insertionSort
                (· ≤ ·)).length / 2) 0)) - 1)) ∧
    0 ≤ robust_vol_frac db symbol := by
  refine ⟨?_, ?_, ?_, ?_, ?_⟩
  · intro h
    simp [robust_vol_frac, h]
  · intro p0 p1 rest h
    simp [absLogRets, h]
  · intro h1 h2
    simp [robust_vol_frac, h1, h2]
  · intro h1 h2
    simp [robust_vol_frac, h1, h2]
  · rw [robust_vol_frac]
    by_cases h1 : (recent_prices db symbol 120).length < 20
    · simp [h1]
    · by_cases h2 :
          (absLogRets ((recent_prices db symbol 120).map Prod.snd)).length < 10
      · simp [h1, h2]
      · simp only [h1, h2, if_false]
        exact le_max_left _ _

/-- Witness for C6: the empty store has no ticks (0 < 20), so the
estimate is 0; and a pair with a non-positive price is discarded. -/
theorem C6_robust_vol_frac_spec_witness :
    robust_vol_frac [] "X" = 0 ∧
    absLogRets ((0 : ℝ) :: 1 :: []) = absLogRets [1] := by
  have hlen : (recent_prices [] "X" 120).length < 20 := by
    rw [recent_prices_nil]
    norm_num
  exact ⟨(C6_robust_vol_frac_spec [] "X").1 hlen,
    (C6_robust_vol_frac_spec [] "X").2.1 0 1 [] (Or.inl le_rfl)⟩

/-- C7: the default reference model maps every snapshot symbol to its
reference price; that reference is the observed price itself when fewer
than 15 recent ticks exist (making the edge of the resulting opportunity
0, so no action can result), and otherwise the median of the up-to-60
most recent tick prices. -/
theorem C7_ref_price_model (db : Db) (snapshot : List (String × ℝ))
    (sym : String) (px : ℝ) (hmem : (sym, px) ∈ snapshot) :
    (sym, ref_price_for db sym px) ∈ compute_ref_prices db snapshot ∧
    ((recent_prices db sym 60).length < 15 →
      ref_price_for db sym px = px ∧
      ∀ side : String,
        (Opportunity.mk sym px (ref_price_for db sym px) side).edge = 0) ∧
    (¬ (recent_prices db sym 60).length < 15 →
      ref_price_for db sym px =
        (((recent_prices db sym 60).map Prod.snd).insertionSort (· ≤ ·)).getD
          ((((recent_prices db sym 60).map Prod.snd).insertionSort
            (· ≤ ·)).length / 2) 0) := by
  refine ⟨?_, ?_, ?_⟩
  · exact List.mem_map_of_mem (fun s => (s.1, ref_price_for db s.1 s.2)) hmem
  · intro h
    have href : ref_price_for db sym px = px := by
      simp [ref_price_for, h]
    refine ⟨href, ?_⟩
    intro side
    rw [href, Opportunity.edge]
    by_cases hp : px ≤ 0
    · simp [hp]
    · by_cases hs : side = "BUY" <;> simp [hp, hs]
  · intro h
    simp [ref_price_for, h]

/-- Witness for C7: a one-symbol snapshot over the empty store — 0 < 15
ticks, so the reference is the observed price and the edge vanishes. -/
theorem C7_ref_price_model_witness :
    (("X", (100 : ℝ)) ∈ ([("X", (100 : ℝ))] : List (String × ℝ))) ∧
    ("X", ref_price_for [] "X" 100) ∈
      compute_ref_prices [] [("X", (100 : ℝ))] ∧
    ref_price_for [] "X" 100 = 100 ∧
    (Opportunity.mk "X" 100 (ref_price_for [] "X" 100) "BUY").edge = 0 := by
  have hmem : ("X", (100 : ℝ)) ∈ ([("X", (100 : ℝ))] : List (String × ℝ)) := by
    simp
  have hlen : (recent_prices [] "X" 60).length < 15 := by
    rw [recent_prices_nil]
    norm_num
  have h := C7_ref_price_model [] [("X", (100 : ℝ))] "X" 100 hmem
  exact ⟨hmem, h.1, (h.2.1 hlen).1, (h.2.1 hlen).2 "BUY"⟩

-- -------------------- a concrete high-volatility history --------------------

/-- 21 ticks for symbol `X` whose price alternates between 1 and 2:
every absolute log return is `log 2`, so the median is `log 2` and the
volatility estimate is `exp(log 2) − 1 = 1`, blowing through the hard
bound. -/
def db1 : Db :=
  [⟨20, "X", 1⟩, ⟨19, "X", 2⟩, ⟨18, "X", 1⟩, ⟨17, "X", 2⟩, ⟨16, "X", 1⟩,
   ⟨15, "X", 2⟩, ⟨14, "X", 1⟩, ⟨13, "X", 2⟩, ⟨12, "X", 1⟩, ⟨11, "X", 2⟩,
   ⟨10, "X", 1⟩, ⟨9, "X", 2⟩, ⟨8, "X", 1⟩, ⟨7, "X", 2⟩, ⟨6, "X", 1⟩,
   ⟨5, "X", 2⟩, ⟨4, "X", 1⟩, ⟨3, "X", 2⟩, ⟨2, "X", 1⟩, ⟨1, "X", 2⟩,
   ⟨0, "X", 1⟩]

theorem recent_prices_db1 :
    recent_prices db1 "X" 120 =
      [(0, 1), (1, 2), (2, 1), (3, 2), (4, 1), (5, 2), (6, 1), (7, 2),
       (8, 1), (9, 2), (10, 1), (11, 2), (12, 1), (13, 2), (14, 1), (15, 2),
       (16, 1), (17, 2), (18, 1), (19, 2), (20, 1)] := by
  simp [recent_prices, db1]

theorem abs_log_half : |Real.log (1 / 2)| = Real.log 2 := by
  rw [show ((1 : ℝ) / 2) = 2⁻¹ by norm_num, Real.log_inv, abs_neg,
    abs_of_nonneg (Real.log_nonneg one_le_two)]

theorem absLogRets_db1 :
    absLogRets
        [(1 : ℝ), 2, 1, 2, 1, 2, 1, 2, 1, 2, 1, 2, 1, 2, 1, 2, 1, 2, 1, 2, 1] =
      List.replicate 20 (Real.log 2) := by
  norm_num [absLogRets, List.replicate, abs_log_half,
    abs_of_nonneg (Real.log_nonneg one_le_two)]

theorem insertionSort_replicate (n : ℕ) (x : ℝ) :
    List.insertionSort (· ≤ ·) (List.replicate n x) = List.replicate n x := by
  induction n with
  | zero => rfl
  | succ n ih =>
      rw [List.replicate_succ, List.insertionSort, ih]
      cases n with
      | zero => rfl
      | succ m =>
          rw [List.replicate_succ, List.orderedInsert, if_pos le_rfl,
            ← List.replicate_succ, ← List.replicate_succ]

theorem robust_vol_db1 : robust_vol_frac db1 "X" = 1 := by
  rw [robust_vol_frac]
  norm_num [recent_prices_db1, absLogRets_db1, insertionSort_replicate,
    List.getD, List.getElem?_replicate, Real.exp_log]

theorem worst_cost_of_action_db1 : worst_cost_of_action db1 "X" = 2.0025 := by
  rw [worst_cost_of_action, robust_vol_db1, FEE_FRAC, SLIPPAGE_FRAC,
    ADVERSE_MOVE_PAD]
  norm_num

/-- Counterexample to C1 as stated: on the high-volatility history
`db1` the cost of action (2.0025) exceeds the hard bound, yet an
opportunity whose edge (0) is below the minimum edge fraction is gated
out *first*: `decide` returns FLAT with *zero* reported cost-of-action
and the edge-gate reason, not the hard-bound tuple the claim
prescribes. -/
theorem C1_hard_bound_counterexample :
    worst_cost_of_action db1 (Opportunity.mk "X" 100 100 "BUY").symbol >
      HARD_MAX_LOSS_FRAC ∧
    Mispricing.decide db1 (Opportunity.mk "X" 100 100 "BUY") =
      ("FLAT", 0, 0, REASON_EDGE) ∧
    Mispricing.decide db1 (Opportunity.mk "X" 100 100 "BUY") ≠
      ("FLAT", 0,
        worst_cost_of_action db1 (Opportunity.mk "X" 100 100 "BUY").symbol,
        REASON_BOUND) := by
  have hb : worst_cost_of_action db1 (Opportunity.mk "X" 100 100 "BUY").symbol >
      HARD_MAX_LOSS_FRAC := by
    show worst_cost_of_action db1 "X" > HARD_MAX_LOSS_FRAC
    rw [worst_cost_of_action_db1, HARD_MAX_LOSS_FRAC]
    norm_num
  have hedge : (Opportunity.mk "X" 100 100 "BUY").edge < MIN_EDGE_FRAC := by
    simp [Opportunity.edge, MIN_EDGE_FRAC]
    norm_num
  have hflat : Mispricing.decide db1 (Opportunity.mk "X" 100 100 "BUY") =
      ("FLAT", 0, 0, REASON_EDGE) := by
    simp [Mispricing.decide, hedge]
  refine ⟨hb, hflat, ?_⟩
  intro heq
  rw [hflat] at heq
  have hbad : REASON_EDGE = REASON_BOUND := congrArg (fun q => q.2.2.2) heq
  exact absurd hbad (by decide)

/-- C1 (amended): when the symbol's cost of action exceeds the hard
bound, `decide` always returns a FLAT action; and whenever the edge
additionally passes the minimum-edge gate, the full returned tuple is
FLAT with cost-of-inaction 0, the computed cost-of-action, and the
hard-bound reason (the source's tag `cost_act>0.0060 (hard bound)`). -/
theorem C1_hard_bound_flat (db : Db) (opp : Opportunity)
    (h : worst_cost_of_action db opp.symbol > HARD_MAX_LOSS_FRAC) :
    (Mispricing.decide db opp).1 = "FLAT" ∧
    (¬ opp.edge < MIN_EDGE_FRAC →
      Mispricing.decide db opp =
        ("FLAT", 0, worst_cost_of_action db opp.symbol, REASON_BOUND)) := by
  constructor
  · by_cases h1 : opp.edge < MIN_EDGE_FRAC
    · simp [Mispricing.decide, h1]
    · simp [Mispricing.decide, h1, h]
  · intro h1
    simp [Mispricing.decide, h1, h]

/-- Witness for the amended C1: a huge edge of 0.5 on the
high-volatility history is still vetoed by the hard bound. -/
theorem C1_hard_bound_flat_witness :
    worst_cost_of_action db1 (Opportunity.mk "X" 50 100 "BUY").symbol >
      HARD_MAX_LOSS_FRAC ∧
    ¬ (Opportunity.mk "X" 50 100 "BUY").edge < MIN_EDGE_FRAC ∧
    Mispricing.decide db1 (Opportunity.mk "X" 50 100 "BUY") =
      ("FLAT", 0,
        worst_cost_of_action db1 (Opportunity.mk "X" 50 100 "BUY").symbol,
        REASON_BOUND) := by
  have hb : worst_cost_of_action db1 (Opportunity.mk "X" 50 100 "BUY").symbol >
      HARD_MAX_LOSS_FRAC := by
    show worst_cost_of_action db1 "X" > HARD_MAX_LOSS_FRAC
    rw [worst_cost_of_action_db1, HARD_MAX_LOSS_FRAC]
    norm_num
  have h1 : ¬ (Opportunity.mk "X" 50 100 "BUY").edge < MIN_EDGE_FRAC := by
    simp [Opportunity.edge, MIN_EDGE_FRAC]
    norm_num
  exact ⟨hb, h1, (C1_hard_bound_flat db1 _ hb).2 h1⟩

end Mispricing
